import Mathlib

/-!
Verification of the WhatsApp instance monitor (`server.js`, health monitor,
`/logout-instance` handler) against its specification.

The JavaScript source is shallowly embedded: every remote call
(`fetchInstances`, `fetchInstanceDetails`, `connectInstance`,
`logoutInstance`) and every database operation is represented by its result,
supplied in an environment record; `try`/`catch` blocks become `Except`
computations with explicit handlers; mutable counters become a pure fold
over the instance list.
-/

namespace WaMonitor

/-- `pat` is a prefix of the character list. -/
def isPrefixOfList : List Char → List Char → Bool
  | [], _ => true
  | _ :: _, [] => false
  | a :: as, b :: bs => a == b && isPrefixOfList as bs

/-- `pat` occurs somewhere in the character list. -/
def containsList (pat : List Char) : List Char → Bool
  | [] => pat.isEmpty
  | b :: bs => isPrefixOfList pat (b :: bs) || containsList pat bs

/-- JS `String.prototype.includes`: `pat` occurs in `s` as a contiguous
substring. -/
def strContains (s pat : String) : Bool := containsList pat.data s.data

/-- Shape of `error.response?.data?.message` as the code inspects it at
server.js:378-379: it may be absent, a single string, or an array. -/
inductive ErrMessage
  | absent
  | str (s : String)
  | arr (l : List String)
  deriving DecidableEq, Repr

/-- A thrown axios error, as far as the code reads it: `error.message`,
`error.response?.status` and `error.response?.data?.message`. -/
structure JsError where
  message : String
  statusCode : Option Nat
  respMessage : ErrMessage
  deriving DecidableEq, Repr

/-- server.js:379 — `Array.isArray(errorMessage) ? errorMessage
: [errorMessage].filter(Boolean)`; a missing or empty-string message is
filtered out, an array is taken as is. -/
def normalizedMessages : ErrMessage → List String
  | .absent => []
  | .str s => if s = "" then [] else [s]
  | .arr l => l

/-- server.js:380-382 — the "instance missing" classification: HTTP 400 and
some message containing "does not exist or is not connected". -/
def instanceMissing (e : JsError) : Bool :=
  e.statusCode == some 400 &&
    (normalizedMessages e.respMessage).any
      (fun msg => strContains msg "does not exist or is not connected")

/-- An `InstanceSummary` as the reconciliation loop reads it:
`name`, `connectionStatus` and `Auth.token` (server.js:319-320). -/
structure Instance where
  name : String
  connectionStatus : String
  token : String
  deriving DecidableEq, Repr

/-- A persisted user record (Mongo `User` document) with the fields the
handlers read. -/
structure UserDoc where
  instance_id : Option String
  mobile_number : Option String
  status : Option String
  deriving DecidableEq, Repr

/-- Result of the `User.findOneAndUpdate` call inside
`markInstanceOffline`: the matched document, no match (null), or a store
error. -/
inductive MongoResult
  | found (doc : UserDoc)
  | notFound
  | dbError (msg : String)
  deriving DecidableEq, Repr

/-- The value `markInstanceOffline` returns on its success path
(server.js:273). -/
structure MarkResult where
  success : Bool
  status : Option String
  deriving DecidableEq, Repr

/-- server.js:260-277 — `markInstanceOffline`. A falsy name returns
immediately. On a matched document it returns `success:true` with the
document's (pre-update) `status`. When the store errors, or when the
update matched nothing (`updateResult` is null, so reading
`updateResult.matchedCount` throws a TypeError), the surrounding
`catch` absorbs the error and the function returns `undefined`: it never
throws to its caller. -/
def markInstanceOffline (instanceName : String) (db : MongoResult) :
    Option MarkResult :=
  if instanceName = "" then none
  else
    match db with
    | .found doc => some { success := true, status := doc.status }
    | .notFound => none
    | .dbError _ => none

instance exceptDecEq {ε α : Type} [DecidableEq ε] [DecidableEq α] :
    DecidableEq (Except ε α)
  | .error e1, .error e2 =>
      if h : e1 = e2 then .isTrue (by rw [h]) else .isFalse (by simp [h])
  | .error _, .ok _ => .isFalse (by simp)
  | .ok _, .error _ => .isFalse (by simp)
  | .ok a1, .ok a2 =>
      if h : a1 = a2 then .isTrue (by rw [h]) else .isFalse (by simp [h])

/-- Results of the remote/database calls one loop iteration of
`checkAndReconnectInstances` may perform, one field per call site:
`detail` is the `fetchInstanceDetails` result, giving the normalized
Bailey status `Whatsapp?.connection?.state || null` (server.js:327) on
success; `closeConnect` is the `connectInstance` result in the
close-state branch (server.js:354), whose payload records whether the
response carries a truthy `base64` field; `closeLogout` is the success of
the `logoutInstance` call in the QR sub-branch (server.js:360);
`remConnect`/`remLogout` are the successes of the `connectInstance` and
`logoutInstance` calls of the null-Bailey/catch remediation
(server.js:334-335, 388-389); `store` is the database outcome whenever
`markInstanceOffline` runs. -/
structure InstEnv where
  detail : Except JsError (Option String)
  closeConnect : Except JsError Bool
  closeLogout : Bool
  remConnect : Bool
  remLogout : Bool
  store : MongoResult
  deriving DecidableEq, Repr

/-- The remote/database calls actually issued while processing one
instance, in order. -/
inductive RCall
  | fetchDetail
  | connect
  | logout
  | markOffline
  deriving DecidableEq, Repr

/-- Per-instance statistics contribution, mirroring the four counters of
server.js:311-314. -/
structure Delta where
  openConnections : Nat := 0
  closedConnections : Nat := 0
  reconnected : Nat := 0
  loggedOut : Nat := 0
  deriving DecidableEq, Repr

def Delta.add (a b : Delta) : Delta :=
  ⟨a.openConnections + b.openConnections,
   a.closedConnections + b.closedConnections,
   a.reconnected + b.reconnected,
   a.loggedOut + b.loggedOut⟩

/-- server.js:333-342 and 387-396 — the remediation
`try { connect; logout; markOffline; loggedOut++ } catch { log }`:
`logoutInstance` runs only if `connectInstance` succeeded,
`markInstanceOffline` (which never throws) only if both succeeded, and
`loggedOutCount` is incremented exactly when connect and logout both
succeeded. -/
def remediate (name : String) (e : InstEnv) : Delta × List RCall :=
  if e.remConnect then
    if e.remLogout then
      let _mark := markInstanceOffline name e.store
      ({ loggedOut := 1 }, [.connect, .logout, .markOffline])
    else ({}, [.connect, .logout])
  else ({}, [.connect])

/-- server.js:322-375 — the `try` block of one loop iteration. Errors of
`fetchInstanceDetails` and of the close-branch `connectInstance` escape to
the iteration's `catch`; the error value is paired with the calls issued
so far. In the close branch, `closedCount++` and `reconnectedCount++`
(server.js:368-369) run after the QR sub-branch whether or not it was
taken, and the QR sub-branch's logout/markOffline failures are absorbed
by their own `catch` (server.js:363). -/
def processInstanceTry (inst : Instance) (e : InstEnv) :
    Except (JsError × List RCall) (Delta × List RCall) :=
  match e.detail with
  | .error err => .error (err, [.fetchDetail])
  | .ok baileyStatus =>
      match baileyStatus with
      | none =>
          .ok ((remediate inst.name e).1,
               .fetchDetail :: (remediate inst.name e).2)
      | some st =>
          if st = "close" then
            match e.closeConnect with
            | .error err => .error (err, [.fetchDetail, .connect])
            | .ok hasBase64 =>
                if hasBase64 then
                  let cs :=
                    if e.closeLogout then [RCall.logout, RCall.markOffline]
                    else [RCall.logout]
                  .ok ({ closedConnections := 1, reconnected := 1 },
                       [RCall.fetchDetail, RCall.connect] ++ cs)
                else
                  .ok ({ closedConnections := 1, reconnected := 1 },
                       [RCall.fetchDetail, RCall.connect])
          else
            .ok ({ openConnections := 1 }, [RCall.fetchDetail])

/-- server.js:317-400 — one loop iteration including its `catch`
(server.js:376-399): on an escaped error, if it classifies as "instance
missing" or the instance's `connectionStatus` is `'ONLINE'` (always true
for the filtered loop entries), the remediation sequence runs; otherwise
the instance is only logged. -/
def processInstance (inst : Instance) (e : InstEnv) : Delta × List RCall :=
  match processInstanceTry inst e with
  | .ok r => r
  | .error (err, cs) =>
      if instanceMissing err || inst.connectionStatus = "ONLINE" then
        ((remediate inst.name e).1, cs ++ (remediate inst.name e).2)
      else
        ({}, cs)

/-- Environment of one reconciliation pass: the `fetchInstances()` result,
each fetched instance paired with the results its processing would
observe. -/
structure PassEnv where
  fetchList : Except JsError (List (Instance × InstEnv))

/-- The `statistics` object of the responses built at server.js:296-307
and 418-429. -/
structure Statistics where
  totalInstances : Nat
  onlineInstances : Nat
  openConnections : Nat
  closedConnections : Nat
  reconnected : Nat
  loggedOut : Nat
  deriving DecidableEq, Repr

def zeroStats : Statistics := ⟨0, 0, 0, 0, 0, 0⟩

/-- The value `checkAndReconnectInstances` resolves with. -/
structure Outcome where
  success : Bool
  message : String
  error : Option String := none
  statistics : Statistics
  deriving DecidableEq, Repr

/-- server.js:280-447 — `checkAndReconnectInstances`. The whole body sits
in a `try` whose `catch` (server.js:431-446) returns a failure outcome,
so the function always resolves, never rejects; in this embedding the
only operation that can reach that `catch` is the initial
`fetchInstances()` (per-iteration errors are consumed by the loop's own
`catch`). Instances are filtered to `connectionStatus === 'ONLINE'`; with
none the all-zero outcome (except `totalInstances`, set to
`instances.length`) returns early; otherwise the per-instance deltas are
accumulated in order. -/
def checkAndReconnectInstances (env : PassEnv) : Outcome :=
  match env.fetchList with
  | .error e =>
      { success := false
        message := "Error checking instances"
        error := some e.message
        statistics := zeroStats }
  | .ok instances =>
      let onlineInstances :=
        instances.filter (fun p => p.1.connectionStatus = "ONLINE")
      if onlineInstances.length = 0 then
        { success := true
          message := "No online instances found"
          statistics :=
            { totalInstances := instances.length
              onlineInstances := 0
              openConnections := 0
              closedConnections := 0
              reconnected := 0
              loggedOut := 0 } }
      else
        let d := onlineInstances.foldl
          (fun acc p => Delta.add acc (processInstance p.1 p.2).1) {}
        { success := true
          message := "Instance check completed"
          statistics :=
            { totalInstances := instances.length
              onlineInstances := onlineInstances.length
              openConnections := d.openConnections
              closedConnections := d.closedConnections
              reconnected := d.reconnected
              loggedOut := d.loggedOut } }

/-! ### Health watchdog (`HealthMonitor` in the monitor script) -/

/-- The watchdog's mutable fields (constructor, monitor script lines
9-12). `lastRestartTime` is a millisecond timestamp or null. -/
structure HMState where
  lastStatus : String
  consecutiveFailures : Nat
  restartAttempted : Bool
  lastRestartTime : Option Nat
  deriving DecidableEq, Repr

/-- The fresh state: `lastStatus = 'unknown'`, no failures, no restart. -/
def initialHMState : HMState := ⟨"unknown", 0, false, none⟩

/-- `restartCooldown: 300000` — 5 minutes (monitor script line 21). -/
def restartCooldown : Nat := 300000

/-- Side effects a watchdog step performs, in order: Slack notifications,
the recovery-automation invocation, and the scheduling of the one-shot
recovery-confirmation check. -/
inductive Action
  | notifyFailure
  | notifyRecovered
  | notifyAttemptRecovery
  | invokeRestart
  | scheduleRecoveryCheck
  | notifyRestartFailed
  | notifyManualIntervention
  | notifyRecoverySuccess
  | notifyRecoveryFailed
  deriving DecidableEq, Repr

/-- Outcome of one poll of the health URL: HTTP 200, a non-200 status
below 500 (axios is configured with `validateStatus: status < 500`), or a
thrown error (network failure or HTTP 500+). -/
inductive PollResult
  | ok200
  | badStatus (code : Nat)
  | netError (msg : String)
  deriving DecidableEq, Repr

/-- `canAttemptRestart` (monitor script lines 233-238): true when no
restart ever happened, or when more than the cooldown has elapsed since
`lastRestartTime`. JS computes `Date.now() - lastRestartTime >
restartCooldown`; with `t ≥ lastRestartTime` the truncated `Nat`
subtraction agrees (and for `t <` it is 0, matching the negative JS
difference being below the cooldown). -/
def canAttemptRestart (t : Nat) (s : HMState) : Bool :=
  match s.lastRestartTime with
  | none => true
  | some lt => decide (t - lt > restartCooldown)

/-- `handleHealthFailure` (monitor script lines 159-198), called with the
post-increment state. When `consecutiveFailures === 1`, no restart is
pending and the cooldown allows it: notify, invoke the restart
automation; on its success set `restartAttempted`, record
`lastRestartTime` and schedule the one-shot recovery check, on its
failure notify that the restart failed (leaving the gate fields
unchanged). Independently, with three or more consecutive failures and
`restartAttempted` set, send the manual-intervention notification. -/
def handleHealthFailure (t : Nat) (restartOk : Bool) (s : HMState) :
    HMState × List Action :=
  let p :=
    if s.consecutiveFailures = 1 && !s.restartAttempted &&
        canAttemptRestart t s then
      if restartOk then
        ({ s with restartAttempted := true, lastRestartTime := some t },
         [Action.notifyAttemptRecovery, Action.invokeRestart,
          Action.scheduleRecoveryCheck])
      else
        (s, [Action.notifyAttemptRecovery, Action.invokeRestart,
             Action.notifyRestartFailed])
    else (s, [])
  let acts2 :=
    if 3 ≤ p.1.consecutiveFailures && p.1.restartAttempted then
      [Action.notifyManualIntervention]
    else []
  (p.1, p.2 ++ acts2)

/-- `checkHealth` (monitor script lines 97-157). On HTTP 200: if the last
status was not `'healthy'`, send the recovered notification when
failures were pending and reset `consecutiveFailures` and
`restartAttempted`; in all cases set `lastStatus := 'healthy'`. On any
failure (non-200 status or thrown error): increment
`consecutiveFailures`, set `lastStatus := 'unhealthy'`, send the failure
notification and run `handleHealthFailure`. `t` is the poll's wall-clock
time, `restartOk` whether the restart automation would succeed. -/
def checkHealth (t : Nat) (r : PollResult) (restartOk : Bool)
    (s : HMState) : HMState × List Action :=
  match r with
  | .ok200 =>
      if s.lastStatus ≠ "healthy" then
        let acts :=
          if 0 < s.consecutiveFailures then [Action.notifyRecovered] else []
        ({ lastStatus := "healthy", consecutiveFailures := 0,
           restartAttempted := false,
           lastRestartTime := s.lastRestartTime }, acts)
      else
        ({ s with lastStatus := "healthy" }, [])
  | _ =>
      let s1 : HMState :=
        { s with consecutiveFailures := s.consecutiveFailures + 1,
                 lastStatus := "unhealthy" }
      ((handleHealthFailure t restartOk s1).1,
       Action.notifyFailure :: (handleHealthFailure t restartOk s1).2)

/-- `checkRecoveryAfterRestart` (monitor script lines 200-231), the
one-shot check 60 s after a restart: on HTTP 200 send the success
notification, reset `consecutiveFailures` and set `lastStatus` healthy
(`restartAttempted` is NOT reset here); otherwise send the
recovery-failed notification and leave the state unchanged. -/
def checkRecoveryAfterRestart (r : PollResult) (s : HMState) :
    HMState × List Action :=
  match r with
  | .ok200 =>
      ({ s with consecutiveFailures := 0, lastStatus := "healthy" },
       [Action.notifyRecoverySuccess])
  | _ => (s, [Action.notifyRecoveryFailed])

/-- One scheduled watchdog event: a regular interval poll (with its time,
result and the restart automation's disposition) or the one-shot
recovery-confirmation check. -/
inductive WEvent
  | poll (t : Nat) (r : PollResult) (restartOk : Bool)
  | recovery (r : PollResult)
  deriving DecidableEq, Repr

def wStep : WEvent → HMState → HMState × List Action
  | .poll t r restartOk, s => checkHealth t r restartOk s
  | .recovery r, s => checkRecoveryAfterRestart r s

/-- Run a sequence of watchdog events, concatenating the emitted
actions. -/
def wRun (s : HMState) : List WEvent → HMState × List Action
  | [] => (s, [])
  | e :: es =>
      ((wRun (wStep e s).1 es).1,
       (wStep e s).2 ++ (wRun (wStep e s).1 es).2)

/-- The actions of each event separately, in event order. -/
def wTrace (s : HMState) : List WEvent → List (List Action)
  | [] => []
  | e :: es => (wStep e s).2 :: wTrace (wStep e s).1 es

/-- An event is a failing one: a poll that does not return HTTP 200, or a
failing recovery-confirmation check. -/
def WEvent.failing : WEvent → Bool
  | .poll _ r _ => r ≠ PollResult.ok200
  | .recovery r => r ≠ PollResult.ok200

/-! ### POST /logout-instance handler -/

/-- JS truthiness of an optional string (absent, or present and
nonempty). -/
def jsTruthy : Option String → Bool
  | none => false
  | some s => s ≠ ""

/-- The request's query parameters (server.js:887). -/
structure LogoutReq where
  instance_id : Option String
  mobile_number : Option String
  deriving DecidableEq, Repr

/-- The user store as the handler queries it: `User.findOne` by
`instance_id` or by `mobile_number`. -/
structure LDb where
  byInstanceId : String → Option UserDoc
  byMobile : String → Option UserDoc

/-- The HTTP response as far as the claims read it: status code and the
`success` flag of the JSON body. -/
structure HttpResp where
  status : Nat
  success : Bool
  deriving DecidableEq, Repr

/-- Faults the handler body can throw to its `catch`. -/
inductive HandlerFault
  | tdzToken
  deriving DecidableEq, Repr

/-- server.js:885-923 plus line 926 — the `try` body of the
`POST /logout-instance` handler up to its first remote call. With no
identifier: 400. Otherwise look the user up (by `instance_id`, taking
`finalInstanceId` from the query, or by `mobile_number`, taking it from
the found document); no user: 404; falsy `finalInstanceId`: 400. The
next statement, `fetchInstances(finalInstanceId, token)` (line 926),
evaluates the identifier `token` — but `token` is declared by `const`
only at line 937, so the read is in the temporal dead zone and throws a
ReferenceError, making lines 928-1023 (including the entire 200 success
path) unreachable. -/
def logoutInstanceTry (req : LogoutReq) (db : LDb) :
    Except HandlerFault HttpResp :=
  if !jsTruthy req.instance_id && !jsTruthy req.mobile_number then
    .ok ⟨400, false⟩
  else
    let lookup :=
      if jsTruthy req.instance_id then
        (db.byInstanceId (req.instance_id.getD ""), req.instance_id)
      else
        let u := db.byMobile (req.mobile_number.getD "")
        (u, u.bind (fun d => d.instance_id))
    match lookup.1 with
    | none => .ok ⟨404, false⟩
    | some _ =>
        if !jsTruthy lookup.2 then .ok ⟨400, false⟩
        else .error .tdzToken

/-- server.js:885-1050 — the handler with its `catch`
(server.js:1024-1049): a ReferenceError carries neither `.response` nor
`.request`, so it lands in the final `else` and yields HTTP 500 with
`success:false`. -/
def logoutInstanceHandler (req : LogoutReq) (db : LDb) : HttpResp :=
  match logoutInstanceTry req db with
  | .ok r => r
  | .error .tdzToken => ⟨500, false⟩

/-! ### Concrete inputs used by counterexamples and witnesses -/

/-- An ONLINE instance as the reconciliation loop sees it. -/
def inst1 : Instance := ⟨"wa1", "ONLINE", "tok1"⟩

/-- An OFFLINE instance, filtered out by the loop. -/
def offlineInst1 : Instance := ⟨"wa2", "OFFLINE", "tok2"⟩

def userDoc1 : UserDoc := ⟨some "wa1", some "9912345", some "ONLINE"⟩

/-- A 400 error whose message matches the "instance missing"
classification. -/
def errMissing1 : JsError :=
  ⟨"Request failed with status code 400", some 400,
   .arr ["Instance wa1 does not exist or is not connected"]⟩

/-- A 500 error: not classified as "instance missing". -/
def errOther1 : JsError :=
  ⟨"Request failed with status code 500", some 500, .absent⟩

/-- Detail fetch yields `close`; the reconnect carries a `base64` (QR)
payload; the QR-branch logout succeeds. -/
def envQR1 : InstEnv :=
  ⟨.ok (some "close"), .ok true, true, true, true, .found userDoc1⟩

/-- Detail fetch yields `close`; the reconnect succeeds with no
`base64` payload. -/
def envNoQR1 : InstEnv :=
  ⟨.ok (some "close"), .ok false, true, true, true, .notFound⟩

/-- Detail fetch fails with an error that is not "instance missing";
the remediation connect and logout would succeed. -/
def envErrOther1 : InstEnv :=
  ⟨.error errOther1, .ok false, false, true, true, .notFound⟩

/-- Detail fetch fails with the "instance missing" error; remediation
connect and logout succeed; the store errors. -/
def envErrMissing1 : InstEnv :=
  ⟨.error errMissing1, .ok false, false, true, true, .dbError "store down"⟩

/-- A pass whose fetched list holds a single OFFLINE instance. -/
def envAllOffline : PassEnv := ⟨.ok [(offlineInst1, envNoQR1)]⟩

/-- A pass whose initial list fetch fails. -/
def envFail1 : PassEnv := ⟨.error errOther1⟩

/-- A failing watchdog poll at time `t` with the restart automation set
to succeed. -/
def failPoll (t : Nat) : WEvent :=
  WEvent.poll t (PollResult.netError "connect ECONNREFUSED") true

/-- The C6 run: a first failing poll at t=0 (restart fires, confirmation
scheduled), the failed recovery-confirmation check, then three more
failing polls on the 2-minute cadence; the last one lies beyond the
5-minute cooldown. -/
def scenC6 : List WEvent :=
  [failPoll 0,
   WEvent.recovery (PollResult.netError "connect ECONNREFUSED"),
   failPoll 120000, failPoll 240000, failPoll 360000]

/-- A logout request naming an instance id. -/
def reqC4 : LogoutReq := ⟨some "inst1", none⟩

/-- A store holding exactly the user for that instance id; the remote
side (ONLINE instance, token, successful logout) is never consulted
because the handler faults before its first remote call. -/
def dbC4 : LDb :=
  ⟨fun s => if s = "inst1" then some ⟨some "inst1", some "9912345", some "ONLINE"⟩
            else none,
   fun _ => none⟩

/-! ### Helper lemmas -/

theorem remediate_eq (name : String) (e : InstEnv) :
    remediate name e =
      if e.remConnect then
        if e.remLogout then
          ({ loggedOut := 1 }, [.connect, .logout, .markOffline])
        else ({}, [.connect, .logout])
      else ({}, [.connect]) := rfl

/-- The remediation always issues its connect call first. -/
theorem remediate_connect_mem (name : String) (e : InstEnv) :
    RCall.connect ∈ (remediate name e).2 := by
  rw [remediate_eq]
  split
  · split <;> simp
  · simp

/-- The remediation never touches the open/closed/reconnected
counters. -/
theorem remediate_delta (name : String) (e : InstEnv) :
    (remediate name e).1.closedConnections = 0 ∧
    (remediate name e).1.reconnected = 0 ∧
    (remediate name e).1.openConnections = 0 := by
  rw [remediate_eq]
  split
  · split <;> simp
  · simp

/-- Unfolding: a failed detail fetch reaches the iteration's `catch`. -/
theorem processInstance_detail_error (inst : Instance) (e : InstEnv)
    (err : JsError) (h : e.detail = .error err) :
    processInstance inst e =
      if instanceMissing err || inst.connectionStatus = "ONLINE" then
        ((remediate inst.name e).1,
         RCall.fetchDetail :: (remediate inst.name e).2)
      else ({}, [RCall.fetchDetail]) := by
  unfold processInstance processInstanceTry
  rw [h]
  rfl

/-- Unfolding: a null Bailey status triggers the remediation. -/
theorem processInstance_null (inst : Instance) (e : InstEnv)
    (h : e.detail = .ok none) :
    processInstance inst e =
      ((remediate inst.name e).1,
       RCall.fetchDetail :: (remediate inst.name e).2) := by
  unfold processInstance processInstanceTry
  rw [h]

/-- Unfolding: a non-close, non-null Bailey status counts one open
connection and performs no remediation. -/
theorem processInstance_open (inst : Instance) (e : InstEnv) (s : String)
    (hdet : e.detail = .ok (some s)) (hs : s ≠ "close") :
    processInstance inst e =
      ({ openConnections := 1 }, [RCall.fetchDetail]) := by
  unfold processInstance processInstanceTry
  rw [hdet]
  simp [hs]

/-- Unfolding: close Bailey status with a successful reconnect counts one
closed connection and one reconnection; the QR sub-branch only adds the
logout (and, if it succeeds, the mark-offline) call. -/
theorem processInstance_close_ok (inst : Instance) (e : InstEnv) (b : Bool)
    (hdet : e.detail = .ok (some "close")) (hcc : e.closeConnect = .ok b) :
    processInstance inst e =
      ({ closedConnections := 1, reconnected := 1 },
       [RCall.fetchDetail, RCall.connect] ++
         (if b then
            (if e.closeLogout then [RCall.logout, RCall.markOffline]
             else [RCall.logout])
          else [])) := by
  unfold processInstance processInstanceTry
  rw [hdet]
  simp only [reduceIte, hcc]
  cases b <;> simp

/-- Unfolding: close Bailey status with a throwing reconnect escapes to
the iteration's `catch`. -/
theorem processInstance_close_err (inst : Instance) (e : InstEnv)
    (err : JsError) (hdet : e.detail = .ok (some "close"))
    (hcc : e.closeConnect = .error err) :
    processInstance inst e =
      if instanceMissing err || inst.connectionStatus = "ONLINE" then
        ((remediate inst.name e).1,
         [RCall.fetchDetail, RCall.connect] ++ (remediate inst.name e).2)
      else ({}, [RCall.fetchDetail, RCall.connect]) := by
  unfold processInstance processInstanceTry
  rw [hdet]
  simp only [reduceIte, hcc]

/-- Every per-instance contribution increments `reconnected` and
`closedConnections` together. -/
theorem processInstance_rec_eq_closed (inst : Instance) (e : InstEnv) :
    (processInstance inst e).1.reconnected =
      (processInstance inst e).1.closedConnections := by
  obtain ⟨h1, h2, h3⟩ := remediate_delta inst.name e
  rcases hdet : e.detail with err | bailey
  · rw [processInstance_detail_error inst e err hdet]
    split <;> simp_all
  · rcases bailey with _ | s
    · rw [processInstance_null inst e hdet]
      simp_all
    · by_cases hs : s = "close"
      · subst hs
        rcases hcc : e.closeConnect with err | b
        · rw [processInstance_close_err inst e err hdet hcc]
          split <;> simp_all
        · rw [processInstance_close_ok inst e b hdet hcc]
      · rw [processInstance_open inst e s hdet hs]

theorem foldl_delta_rec_eq_closed (l : List (Instance × InstEnv))
    (acc : Delta) (h : acc.reconnected = acc.closedConnections) :
    (l.foldl (fun acc p => Delta.add acc (processInstance p.1 p.2).1)
        acc).reconnected =
    (l.foldl (fun acc p => Delta.add acc (processInstance p.1 p.2).1)
        acc).closedConnections := by
  induction l generalizing acc with
  | nil => exact h
  | cons p l ih =>
      simp only [List.foldl_cons]
      exact ih _ (by
        simp [Delta.add, h, processInstance_rec_eq_closed p.1 p.2])

/-- A pass over a single ONLINE instance reports exactly that
instance's per-iteration contribution. -/
theorem pass_singleton (inst : Instance) (e : InstEnv)
    (honline : inst.connectionStatus = "ONLINE") :
    (checkAndReconnectInstances ⟨.ok [(inst, e)]⟩).statistics =
      { totalInstances := 1, onlineInstances := 1,
        openConnections := (processInstance inst e).1.openConnections,
        closedConnections := (processInstance inst e).1.closedConnections,
        reconnected := (processInstance inst e).1.reconnected,
        loggedOut := (processInstance inst e).1.loggedOut } := by
  unfold checkAndReconnectInstances
  simp [honline, Delta.add, List.filter]

/-! ### Claim theorems -/

/-- C9. Every outcome of `checkAndReconnectInstances` satisfies
`reconnected = closedConnections`: the two counters are incremented
together in the close-state branch (QR sub-branch included) and are both
0 in the no-online and whole-pass-failure outcomes. -/
theorem reconnected_eq_closed_C9 (env : PassEnv) :
    (checkAndReconnectInstances env).statistics.reconnected =
      (checkAndReconnectInstances env).statistics.closedConnections := by
  unfold checkAndReconnectInstances
  rcases env.fetchList with e | instances
  · rfl
  · dsimp only
    split
    · rfl
    · exact foldl_delta_rec_eq_closed _ _ rfl

/-- C5. If the initial list fetch fails, `checkAndReconnectInstances`
returns (never throws) the failure outcome carrying the error message and
all-zero statistics; and in general the pass only ever returns either a
success outcome or that whole-pass failure record — every other error is
absorbed inside the loop. -/
theorem pass_absorbs_failures_C5 :
    (∀ (env : PassEnv) (e : JsError), env.fetchList = .error e →
        checkAndReconnectInstances env =
          { success := false, message := "Error checking instances",
            error := some e.message, statistics := zeroStats })
    ∧ (∀ env : PassEnv, (checkAndReconnectInstances env).success = false →
        (checkAndReconnectInstances env).statistics = zeroStats ∧
          ∃ e, env.fetchList = .error e ∧
            (checkAndReconnectInstances env).error = some e.message) := by
  constructor
  · intro env e h
    unfold checkAndReconnectInstances
    rw [h]
  · intro env h
    rcases henv : env.fetchList with e | instances
    · refine ⟨?_, e, rfl, ?_⟩ <;>
        · unfold checkAndReconnectInstances
          rw [henv]
    · exfalso
      unfold checkAndReconnectInstances at h
      rw [henv] at h
      dsimp only at h
      split at h <;> simp at h

/-- C5 witness: the failure outcome at a concrete failed fetch. -/
theorem pass_absorbs_failures_C5_witness :
    checkAndReconnectInstances envFail1 =
      { success := false, message := "Error checking instances",
        error := some errOther1.message, statistics := zeroStats } :=
  pass_absorbs_failures_C5.1 envFail1 errOther1 rfl

/-- C2 counterexample: a fetched list with one OFFLINE instance has zero
ONLINE entries, and the outcome does carry `success = true` and the
"no online instances" message, but `totalInstances` is 1, not 0. -/
theorem no_online_zero_total_C2_cex :
    envAllOffline.fetchList = .ok [(offlineInst1, envNoQR1)]
    ∧ offlineInst1.connectionStatus ≠ "ONLINE"
    ∧ (checkAndReconnectInstances envAllOffline).success = true
    ∧ (checkAndReconnectInstances envAllOffline).message =
        "No online instances found"
    ∧ (checkAndReconnectInstances envAllOffline).statistics.totalInstances
        ≠ 0 := by decide

/-- C2 amended: with zero ONLINE entries the pass returns `success=true`,
the "No online instances found" message, and statistics whose counters
are all 0 except `totalInstances`, which equals the length of the fetched
list (so it is 0 only when the list itself is empty). -/
theorem no_online_outcome_C2 (env : PassEnv)
    (instances : List (Instance × InstEnv))
    (hfetch : env.fetchList = .ok instances)
    (hnone :
      (instances.filter (fun p => p.1.connectionStatus = "ONLINE")).length
        = 0) :
    checkAndReconnectInstances env =
      { success := true, message := "No online instances found",
        error := none,
        statistics :=
          { totalInstances := instances.length, onlineInstances := 0,
            openConnections := 0, closedConnections := 0,
            reconnected := 0, loggedOut := 0 } } := by
  unfold checkAndReconnectInstances
  rw [hfetch]
  dsimp only
  rw [if_pos hnone]

/-- C2 witness: the amended outcome at the concrete all-OFFLINE list. -/
theorem no_online_outcome_C2_witness :
    checkAndReconnectInstances envAllOffline =
      { success := true, message := "No online instances found",
        error := none,
        statistics :=
          { totalInstances := 1, onlineInstances := 0,
            openConnections := 0, closedConnections := 0,
            reconnected := 0, loggedOut := 0 } } :=
  no_online_outcome_C2 envAllOffline [(offlineInst1, envNoQR1)] rfl
    (by decide)

/-- C1 counterexample: for the concrete ONLINE instance whose detail
fetch yields `close` and whose reconnect returns a `base64` payload, the
logout call is indeed issued, but `loggedOut` stays 0 while `reconnected`
(and `closedConnections`) is incremented — the claimed counting is
false. -/
theorem qr_counts_reconnected_C1_cex :
    inst1.connectionStatus = "ONLINE"
    ∧ envQR1.detail = Except.ok (some "close")
    ∧ envQR1.closeConnect = Except.ok true
    ∧ RCall.logout ∈ (processInstance inst1 envQR1).2
    ∧ (processInstance inst1 envQR1).1.loggedOut = 0
    ∧ (processInstance inst1 envQR1).1.reconnected = 1
    ∧ (checkAndReconnectInstances
        ⟨.ok [(inst1, envQR1)]⟩).statistics.loggedOut = 0
    ∧ (checkAndReconnectInstances
        ⟨.ok [(inst1, envQR1)]⟩).statistics.reconnected = 1 := by decide

/-- C1 amended: for every ONLINE instance whose detail fetch yields
`connectionState = close` and whose reconnect response carries a
QR/base64 payload, a logout call is issued, but the instance is counted
under `closedConnections` and `reconnected` — `loggedOut` is not
incremented in the QR branch. -/
theorem qr_branch_logout_C1 (inst : Instance) (e : InstEnv)
    (honline : inst.connectionStatus = "ONLINE")
    (hdet : e.detail = .ok (some "close"))
    (hcc : e.closeConnect = .ok true) :
    RCall.logout ∈ (processInstance inst e).2
    ∧ (processInstance inst e).1 =
        { closedConnections := 1, reconnected := 1 }
    ∧ (checkAndReconnectInstances ⟨.ok [(inst, e)]⟩).statistics =
        { totalInstances := 1, onlineInstances := 1, openConnections := 0,
          closedConnections := 1, reconnected := 1, loggedOut := 0 } := by
  have key := processInstance_close_ok inst e true hdet hcc
  refine ⟨?_, ?_, ?_⟩
  · rw [key]
    cases hcl : e.closeLogout <;> simp [hcl]
  · rw [key]
  · rw [pass_singleton inst e honline, key]

/-- C1 witness: the amended behaviour at the concrete QR environment. -/
theorem qr_branch_logout_C1_witness :
    RCall.logout ∈ (processInstance inst1 envQR1).2
    ∧ (processInstance inst1 envQR1).1 =
        { closedConnections := 1, reconnected := 1 }
    ∧ (checkAndReconnectInstances ⟨.ok [(inst1, envQR1)]⟩).statistics =
        { totalInstances := 1, onlineInstances := 1, openConnections := 0,
          closedConnections := 1, reconnected := 1, loggedOut := 0 } :=
  qr_branch_logout_C1 inst1 envQR1 rfl rfl rfl

/-- C3 counterexample: a detail-fetch failure that is NOT the "instance
missing" error still triggers the full remediation on an ONLINE
instance — the connect call is issued and `loggedOut` is incremented, so
"logged and skipped, no statistic incremented" is false. -/
theorem detail_error_skip_C3_cex :
    inst1.connectionStatus = "ONLINE"
    ∧ envErrOther1.detail = Except.error errOther1
    ∧ instanceMissing errOther1 = false
    ∧ RCall.connect ∈ (processInstance inst1 envErrOther1).2
    ∧ (processInstance inst1 envErrOther1).1.loggedOut = 1 := by decide

/-- C3 amended: for every ONLINE instance whose detail fetch fails — for
any reason, "instance missing" or not — the catch branch's condition
`instanceMissing || connectionStatus === 'ONLINE'` holds, so the
connect/logout/mark-offline remediation is attempted; the log-and-skip
branch is unreachable for the loop's (all ONLINE) instances. -/
theorem detail_error_remediates_C3 (inst : Instance) (e : InstEnv)
    (err : JsError) (honline : inst.connectionStatus = "ONLINE")
    (hdet : e.detail = .error err) :
    processInstance inst e =
      ((remediate inst.name e).1,
       RCall.fetchDetail :: (remediate inst.name e).2)
    ∧ RCall.connect ∈ (processInstance inst e).2 := by
  have key := processInstance_detail_error inst e err hdet
  simp only [honline, decide_True, Bool.or_true, if_true] at key
  exact ⟨key, by
    rw [key]
    exact List.mem_cons_of_mem _ (remediate_connect_mem inst.name e)⟩

/-- C3 witness: the amended behaviour at the concrete non-missing
error. -/
theorem detail_error_remediates_C3_witness :
    processInstance inst1 envErrOther1 =
      ((remediate inst1.name envErrOther1).1,
       RCall.fetchDetail :: (remediate inst1.name envErrOther1).2)
    ∧ RCall.connect ∈ (processInstance inst1 envErrOther1).2 :=
  detail_error_remediates_C3 inst1 envErrOther1 errOther1 rfl rfl

/-- C7. For every ONLINE instance whose detail fetch yields
`connectionState = close` and whose reconnect carries no base64 payload:
exactly one `reconnected` and one `closedConnections` increment, no
logout call, and a singleton pass reports exactly those statistics. -/
theorem close_no_qr_reconnect_C7 (inst : Instance) (e : InstEnv)
    (honline : inst.connectionStatus = "ONLINE")
    (hdet : e.detail = .ok (some "close"))
    (hcc : e.closeConnect = .ok false) :
    (processInstance inst e).1 =
        { closedConnections := 1, reconnected := 1 }
    ∧ RCall.logout ∉ (processInstance inst e).2
    ∧ (checkAndReconnectInstances ⟨.ok [(inst, e)]⟩).statistics =
        { totalInstances := 1, onlineInstances := 1, openConnections := 0,
          closedConnections := 1, reconnected := 1, loggedOut := 0 } := by
  have key := processInstance_close_ok inst e false hdet hcc
  refine ⟨by rw [key], ?_, ?_⟩
  · rw [key]
    simp
  · rw [pass_singleton inst e honline, key]

/-- C7 witness: the behaviour at the concrete no-QR close
environment. -/
theorem close_no_qr_reconnect_C7_witness :
    (processInstance inst1 envNoQR1).1 =
        { closedConnections := 1, reconnected := 1 }
    ∧ RCall.logout ∉ (processInstance inst1 envNoQR1).2
    ∧ (checkAndReconnectInstances ⟨.ok [(inst1, envNoQR1)]⟩).statistics =
        { totalInstances := 1, onlineInstances := 1, openConnections := 0,
          closedConnections := 1, reconnected := 1, loggedOut := 0 } :=
  close_no_qr_reconnect_C7 inst1 envNoQR1 rfl rfl rfl

/-- C8. For every ONLINE instance whose detail fetch fails with the
"instance missing" error and whose remediation connect and logout
succeed: the full connect/logout/mark-offline sequence is issued,
`loggedOut` is incremented — independently of the store outcome the
mark-offline step observes, since `markInstanceOffline` absorbs its own
errors — and a singleton pass counts it under `loggedOut`. -/
theorem instance_missing_remediation_C8 (inst : Instance) (e : InstEnv)
    (err : JsError) (honline : inst.connectionStatus = "ONLINE")
    (hdet : e.detail = .error err)
    (hmiss : instanceMissing err = true)
    (hconn : e.remConnect = true) (hlog : e.remLogout = true) :
    processInstance inst e =
      ({ loggedOut := 1 },
       [RCall.fetchDetail, RCall.connect, RCall.logout, RCall.markOffline])
    ∧ (∀ db : MongoResult,
        processInstance inst { e with store := db } =
          processInstance inst e)
    ∧ (checkAndReconnectInstances
        ⟨.ok [(inst, e)]⟩).statistics.loggedOut = 1 := by
  have hrem : remediate inst.name e =
      ({ loggedOut := 1 }, [.connect, .logout, .markOffline]) := by
    rw [remediate_eq, hconn, hlog]
    simp
  have key := processInstance_detail_error inst e err hdet
  rw [hmiss] at key
  simp only [Bool.true_or, if_true, hrem] at key
  refine ⟨key, ?_, ?_⟩
  · intro db
    have hdet' : ({ e with store := db } : InstEnv).detail = .error err :=
      hdet
    have hrem' : remediate inst.name { e with store := db } =
        ({ loggedOut := 1 }, [.connect, .logout, .markOffline]) := by
      rw [remediate_eq]
      show (if e.remConnect then _ else _) = _
      rw [hconn, hlog]
      simp
    have key' := processInstance_detail_error inst { e with store := db }
      err hdet'
    rw [hmiss] at key'
    simp only [Bool.true_or, if_true, hrem'] at key'
    rw [key', key]
  · rw [pass_singleton inst e honline, key]

/-- C8 witness: the concrete "instance missing" environment whose store
errors still yields `loggedOut = 1`. -/
theorem instance_missing_remediation_C8_witness :
    processInstance inst1 envErrMissing1 =
      ({ loggedOut := 1 },
       [RCall.fetchDetail, RCall.connect, RCall.logout, RCall.markOffline])
    ∧ (checkAndReconnectInstances
        ⟨.ok [(inst1, envErrMissing1)]⟩).statistics.loggedOut = 1 :=
  ⟨(instance_missing_remediation_C8 inst1 envErrMissing1 errMissing1 rfl rfl
      (by decide) rfl rfl).1,
   (instance_missing_remediation_C8 inst1 envErrMissing1 errMissing1 rfl rfl
      (by decide) rfl rfl).2.2⟩

/-! ### Watchdog helper lemmas -/

/-- If `handleHealthFailure` invokes the restart automation, its guard
held: exactly one consecutive failure, no pending restart, and the
cooldown satisfied. -/
theorem handleHealthFailure_restart_mem (t : Nat) (b : Bool) (s : HMState)
    (h : Action.invokeRestart ∈ (handleHealthFailure t b s).2) :
    s.consecutiveFailures = 1 ∧ s.restartAttempted = false ∧
      canAttemptRestart t s = true := by
  unfold handleHealthFailure at h
  by_cases hg : (decide (s.consecutiveFailures = 1) && !s.restartAttempted
      && canAttemptRestart t s) = true
  · simp only [Bool.and_eq_true, decide_eq_true_eq,
      Bool.not_eq_true'] at hg
    exact ⟨hg.1.1, hg.1.2, hg.2⟩
  · rw [if_neg hg] at h
    dsimp only at h
    split at h <;> simp at h

/-- If a poll step invokes the restart automation, the pre-state had zero
consecutive failures, no pending restart, and the cooldown satisfied. -/
theorem checkHealth_restart_mem (s : HMState) (t : Nat) (r : PollResult)
    (b : Bool) (h : Action.invokeRestart ∈ (checkHealth t r b s).2) :
    s.consecutiveFailures = 0 ∧ s.restartAttempted = false ∧
      canAttemptRestart t s = true := by
  cases r with
  | ok200 =>
      exfalso
      simp only [checkHealth] at h
      split at h <;> simp at h
  | badStatus code =>
      simp only [checkHealth, List.mem_cons] at h
      rcases h with h | h
      · exact absurd h (by decide)
      · have hm := handleHealthFailure_restart_mem t b _ h
        have h0 : s.consecutiveFailures + 1 = 1 := hm.1
        exact ⟨by omega, hm.2.1, hm.2.2⟩
  | netError msg =>
      simp only [checkHealth, List.mem_cons] at h
      rcases h with h | h
      · exact absurd h (by decide)
      · have hm := handleHealthFailure_restart_mem t b _ h
        have h0 : s.consecutiveFailures + 1 = 1 := hm.1
        exact ⟨by omega, hm.2.1, hm.2.2⟩

/-- With at least two prior consecutive failures and a pending restart
attempt, every further failing poll sends the manual-intervention
notification. -/
theorem checkHealth_manual (s : HMState) (t : Nat) (r : PollResult)
    (b : Bool) (h2 : 2 ≤ s.consecutiveFailures)
    (ha : s.restartAttempted = true) (hr : r ≠ PollResult.ok200) :
    Action.notifyManualIntervention ∈ (checkHealth t r b s).2 := by
  have h1 : ¬ (s.consecutiveFailures + 1 = 1) := by omega
  have h3 : 3 ≤ s.consecutiveFailures + 1 := by omega
  cases r with
  | ok200 => exact absurd rfl hr
  | badStatus code =>
      simp [checkHealth, handleHealthFailure, h1, ha, h3]
  | netError msg =>
      simp [checkHealth, handleHealthFailure, h1, ha, h3]

/-- A failing poll increments `consecutiveFailures` by one. -/
theorem checkHealth_fail_failures (s : HMState) (t : Nat) (r : PollResult)
    (b : Bool) (hr : r ≠ PollResult.ok200) :
    (checkHealth t r b s).1.consecutiveFailures =
      s.consecutiveFailures + 1 := by
  have key : ∀ s' : HMState,
      (handleHealthFailure t b s').1.consecutiveFailures =
        s'.consecutiveFailures := by
    intro s'
    unfold handleHealthFailure
    dsimp only
    split
    · split <;> rfl
    · rfl
  cases r with
  | ok200 => exact absurd rfl hr
  | badStatus code => exact key _
  | netError msg => exact key _

/-- Along any run of failing events from a state with at least one
pending consecutive failure, the restart automation is never invoked. -/
theorem wRun_failing_no_restart (evs : List WEvent) (s : HMState)
    (h1 : 1 ≤ s.consecutiveFailures)
    (hf : ∀ e ∈ evs, e.failing = true) :
    Action.invokeRestart ∉ (wRun s evs).2 := by
  induction evs generalizing s with
  | nil => simp [wRun]
  | cons e es ih =>
      intro h
      simp only [wRun, List.mem_append] at h
      have hstep : 1 ≤ (wStep e s).1.consecutiveFailures := by
        cases e with
        | poll t r b =>
            have hr : r ≠ PollResult.ok200 := by
              have := hf _ (List.mem_cons_self _ _)
              simpa [WEvent.failing] using this
            rw [wStep, checkHealth_fail_failures s t r b hr]
            omega
        | recovery r =>
            have hr : r ≠ PollResult.ok200 := by
              have := hf _ (List.mem_cons_self _ _)
              simpa [WEvent.failing] using this
            cases r with
            | ok200 => exact absurd rfl hr
            | badStatus code => exact h1
            | netError msg => exact h1
      rcases h with h | h
      · cases e with
        | poll t r b =>
            have hm := checkHealth_restart_mem s t r b h
            omega
        | recovery r =>
            cases r <;> simp [wStep, checkRecoveryAfterRestart] at h
      · exact ih (wStep e s).1 hstep
          (fun e' he' => hf _ (List.mem_cons_of_mem _ he')) h

/-! ### Watchdog claim theorems -/

/-- C6. The watchdog never invokes the recovery trigger unless the
cooldown allows it (no prior restart, or more than the cooldown elapsed
since the last one); with a pending restart and three or more
consecutive failures every failing poll escalates; and in the concrete
run — failing poll with successful restart, failed recovery confirmation,
then three more failing polls — exactly one restart invocation occurs,
with the manual-intervention escalation on the third and fourth failing
polls. -/
theorem watchdog_cooldown_scenario_C6 :
    (∀ (s : HMState) (t : Nat) (r : PollResult) (b : Bool),
        Action.invokeRestart ∈ (checkHealth t r b s).2 →
          canAttemptRestart t s = true)
    ∧ (∀ (s : HMState) (t : Nat) (r : PollResult) (b : Bool),
        2 ≤ s.consecutiveFailures → s.restartAttempted = true →
          r ≠ PollResult.ok200 →
          Action.notifyManualIntervention ∈ (checkHealth t r b s).2)
    ∧ wTrace initialHMState scenC6 =
        [[Action.notifyFailure, Action.notifyAttemptRecovery,
          Action.invokeRestart, Action.scheduleRecoveryCheck],
         [Action.notifyRecoveryFailed],
         [Action.notifyFailure],
         [Action.notifyFailure, Action.notifyManualIntervention],
         [Action.notifyFailure, Action.notifyManualIntervention]]
    ∧ (wRun initialHMState scenC6).2.count Action.invokeRestart = 1 :=
  ⟨fun s t r b h => (checkHealth_restart_mem s t r b h).2.2,
   checkHealth_manual, by decide, by decide⟩

/-- C6 witness: the cooldown conclusion at the first failing poll of the
scenario, and the escalation at its state before the third failing
poll. -/
theorem watchdog_cooldown_scenario_C6_witness :
    canAttemptRestart 0 initialHMState = true
    ∧ Action.notifyManualIntervention ∈
        (checkHealth 240000 (PollResult.netError "connect ECONNREFUSED")
          true ⟨"unhealthy", 2, true, some 0⟩).2 :=
  ⟨watchdog_cooldown_scenario_C6.1 initialHMState 0
      (PollResult.netError "connect ECONNREFUSED") true (by decide),
   watchdog_cooldown_scenario_C6.2.1 ⟨"unhealthy", 2, true, some 0⟩
      240000 (PollResult.netError "connect ECONNREFUSED") true
      (by decide) rfl (by decide)⟩

/-- C10. The restart branch fires only from a pre-state with zero
consecutive failures (i.e. when the post-increment count is exactly 1);
hence if the first failing poll of a streak finds `restartAttempted`
still true or the cooldown unelapsed, no restart happens then and none
happens during any further failing events of the streak, even at times
past the cooldown; and a healthy poll from a non-healthy `lastStatus`
resets both the failure counter and the `restartAttempted` gate. -/
theorem restart_gate_streak_C10 :
    (∀ (s : HMState) (t : Nat) (r : PollResult) (b : Bool),
        Action.invokeRestart ∈ (checkHealth t r b s).2 →
          s.consecutiveFailures = 0)
    ∧ (∀ (s : HMState) (t : Nat) (r : PollResult) (b : Bool)
          (evs : List WEvent),
        r ≠ PollResult.ok200 →
        s.consecutiveFailures = 0 →
        (s.restartAttempted = true ∨ canAttemptRestart t s = false) →
        (∀ e ∈ evs, e.failing = true) →
        Action.invokeRestart ∉
          (wRun s (WEvent.poll t r b :: evs)).2)
    ∧ (∀ (s : HMState) (t : Nat) (b : Bool),
        s.lastStatus ≠ "healthy" →
          (checkHealth t PollResult.ok200 b s).1.consecutiveFailures = 0
          ∧ (checkHealth t PollResult.ok200 b s).1.restartAttempted
              = false) := by
  refine ⟨fun s t r b h => (checkHealth_restart_mem s t r b h).1,
    ?_, ?_⟩
  · intro s t r b evs hr h0 hb hf
    intro h
    simp only [wRun, List.mem_append] at h
    rcases h with h | h
    · have hm := checkHealth_restart_mem s t r b h
      rcases hb with hb | hb
      · rw [hm.2.1] at hb
        exact absurd hb (by decide)
      · rw [hm.2.2] at hb
        exact absurd hb (by decide)
    · have hstep : 1 ≤ (wStep (WEvent.poll t r b) s).1.consecutiveFailures := by
        rw [wStep, checkHealth_fail_failures s t r b hr]
        omega
      exact wRun_failing_no_restart evs _ hstep hf h
  · intro s t b h
    constructor <;> simp [checkHealth, h]

/-- C10 witness: from a healthy-looking state with the restart gate still
set and the cooldown long elapsed, a failing poll and two more failing
polls never invoke the restart automation. -/
theorem restart_gate_streak_C10_witness :
    Action.invokeRestart ∉
      (wRun ⟨"healthy", 0, true, some 0⟩
        (WEvent.poll 1000000 (PollResult.netError "connect ECONNREFUSED")
            true :: [failPoll 1120000, failPoll 1240000])).2 :=
  restart_gate_streak_C10.2.1 ⟨"healthy", 0, true, some 0⟩ 1000000
    (PollResult.netError "connect ECONNREFUSED") true
    [failPoll 1120000, failPoll 1240000]
    (by decide) rfl (Or.inl rfl) (by decide)

/-! ### POST /logout-instance claim theorem -/

/-- The handler body only ever produces 400, 404, or the temporal-dead-
zone fault. -/
theorem logoutInstanceTry_cases (req : LogoutReq) (db : LDb) :
    logoutInstanceTry req db = .ok ⟨400, false⟩
    ∨ logoutInstanceTry req db = .ok ⟨404, false⟩
    ∨ logoutInstanceTry req db = .error .tdzToken := by
  unfold logoutInstanceTry
  dsimp only
  repeat' split
  all_goals
    first
      | exact Or.inl rfl
      | exact Or.inr (Or.inl rfl)
      | exact Or.inr (Or.inr rfl)

/-- C4. Every request that names the user by `instance_id` and finds it
in the store is answered with HTTP 500 and `success=false`: the handler
reads `token` before its `const` declaration (temporal dead zone) at its
first remote call, so the documented 200 success path — and indeed any
200 response — is unreachable. -/
theorem logout_instance_always_500_C4 :
    (∀ (req : LogoutReq) (db : LDb),
        jsTruthy req.instance_id = true →
        (db.byInstanceId (req.instance_id.getD "")).isSome = true →
        logoutInstanceHandler req db = ⟨500, false⟩)
    ∧ (∀ (req : LogoutReq) (db : LDb),
        (logoutInstanceHandler req db).status ≠ 200) := by
  constructor
  · intro req db h1 h2
    obtain ⟨u, hu⟩ := Option.isSome_iff_exists.mp h2
    unfold logoutInstanceHandler logoutInstanceTry
    simp [h1, hu]
  · intro req db
    unfold logoutInstanceHandler
    rcases logoutInstanceTry_cases req db with h | h | h <;>
      rw [h] <;> decide

/-- C4 witness: the concrete valid request — user present in the store —
receives 500, not 200. -/
theorem logout_instance_always_500_C4_witness :
    logoutInstanceHandler reqC4 dbC4 = ⟨500, false⟩ :=
  logout_instance_always_500_C4.1 reqC4 dbC4 (by decide) (by decide)

end WaMonitor
